import Mathlib

/-!
Verification of the session-lifecycle and protocol core of the
playwright-mcp-framework repository.

The development shallowly embeds the TypeScript sources:

* `src/core/browserManager.ts` — the `BrowserManager` class becomes a pure
  state machine over `BMState`.  Every call into the underlying Playwright
  engine is modelled by an explicit outcome parameter (`Except EngErr _`),
  so a single run of an operation is a function of the state and of the
  outcomes the engine would produce at each call site.
* `src/core/processHooks.ts` — the shutdown coordinator becomes a function
  from a trigger, the cleanup outcome and the re-entrancy flag to the exit
  code the process would use.
* `src/utils/fs.ts` — `cleanDirectory` and `matchesPattern` become pure
  functions over an explicit directory listing.
* `src/mcp/server.ts` — the static tool catalogue of `handleToolsList` and
  the `browser_quit` tool handler.

Strings are modelled as `List Char` so that every definition is
executable and every concrete statement decidable.
-/

/-- Strings of the embedded program, as explicit character lists. -/
abbrev Str := List Char

/-- Coerce a Lean string literal into the `Str` representation. -/
def str (s : String) : Str := s.data

/-- Message of an exception thrown by an underlying Playwright engine call. -/
abbrev EngErr := Str

/-- Errors thrown by `BrowserManager` operations.

* `alreadyLaunched` — `launch`'s "Browser is already launched" error;
* `notLaunched op` — the error thrown by `ensureLaunched(op)`;
* `engine msg` — an engine exception re-raised unchanged;
* `wrapped msg cause` — a wrap-and-rethrow error (`click`/`type`) carrying
  the original engine error as its cause. -/
inductive BMError where
  | alreadyLaunched : BMError
  | notLaunched (operation : Str) : BMError
  | engine (msg : EngErr) : BMError
  | wrapped (msg : Str) (cause : BMError) : BMError
deriving Repr, DecidableEq

/-- Human-readable message of a `BMError`, as built by the source. -/
def bmErrorMessage : BMError → Str
  | .alreadyLaunched =>
      str "Browser is already launched. Call quit() before launching again."
  | .notLaunched op =>
      str "Cannot " ++ op ++ str ": Browser is not launched. Call launch() first."
  | .engine m => m
  | .wrapped m _ => m

/-- The mutable fields of the `BrowserManager` singleton
(`src/core/browserManager.ts`): the `browser`, `context` and `page`
handles (opaque engine resources, modelled by numeric ids) and the
`isShuttingDown` re-entrancy flag. -/
structure BMState where
  browser : Option Nat
  context : Option Nat
  page : Option Nat
  isShuttingDown : Bool
deriving Repr, DecidableEq

/-- The state at process start: all handles null, not shutting down. -/
def initialState : BMState := ⟨none, none, none, false⟩

/-- `isLaunched()` from the source. -/
def isLaunched (s : BMState) : Bool := s.browser.isSome && s.page.isSome

/-- The condition under which `ensureLaunched` throws:
`!this.browser || !this.page`. -/
def ensureLaunchedFails (s : BMState) : Bool := s.browser.isNone || s.page.isNone

/-- `BrowserConfig` from `src/core/config.ts`. -/
structure BrowserConfig where
  headless : Bool
  slowMoMs : Nat
  defaultTimeoutMs : Nat
  screenshotDir : Str
deriving Repr, DecidableEq

/-- The documented configuration defaults from `loadConfig()`. -/
def defaultConfig : BrowserConfig := ⟨false, 0, 30000, str "./screenshots"⟩

/-- Outcomes of the three engine calls made by `launch`:
`chromium.launch`, `browser.newContext`, `context.newPage`.
A successful call returns a fresh handle. -/
structure LaunchBehavior where
  chromiumLaunch : Except EngErr Nat
  newContext : Except EngErr Nat
  newPage : Except EngErr Nat

/-- Outcomes of the three engine calls made by `quit`:
`page.close`, `context.close`, `browser.close`. -/
structure QuitBehavior where
  pageClose : Except EngErr Unit
  contextClose : Except EngErr Unit
  browserClose : Except EngErr Unit

/-- `launch(options)` from the source.  The guard checks `this.browser`
only; on success the three handles are assigned one by one, in the order
in which the `await`s complete, so an engine failure in `newContext` or
`newPage` leaves the earlier assignments in place (the wrapping `runStep`
only logs and attempts a screenshot; it does not touch the fields). -/
def launch (b : LaunchBehavior) (s : BMState) : Except BMError Unit × BMState :=
  if s.browser.isSome then (.error .alreadyLaunched, s)
  else
    match b.chromiumLaunch with
    | .error e => (.error (.engine e), s)
    | .ok br =>
      let s1 := { s with browser := some br }
      match b.newContext with
      | .error e => (.error (.engine e), s1)
      | .ok ctx =>
        let s2 := { s1 with context := some ctx }
        match b.newPage with
        | .error e => (.error (.engine e), s2)
        | .ok pg => (.ok (), { s2 with page := some pg })

/-- `navigate(url)`: `ensureLaunched`, then `page.goto` whose failure is
re-raised unchanged.  No field is mutated. -/
def navigate (gotoResult : Except EngErr Unit) (url : Str) (s : BMState) :
    Except BMError Unit × BMState :=
  if ensureLaunchedFails s then (.error (.notLaunched (str "navigate")), s)
  else
    match gotoResult with
    | .error e => (.error (.engine e), s)
    | .ok _ => (.ok (), s)

/-- `getTitle()`: `ensureLaunched`, then `page.title()`. -/
def getTitle (titleResult : Except EngErr Str) (s : BMState) :
    Except BMError Str × BMState :=
  if ensureLaunchedFails s then (.error (.notLaunched (str "getTitle")), s)
  else
    match titleResult with
    | .error e => (.error (.engine e), s)
    | .ok t => (.ok t, s)

/-- `getUrl()`: `ensureLaunched`, then the synchronous `page.url()`. -/
def getUrl (currentUrl : Str) (s : BMState) : Except BMError Str × BMState :=
  if ensureLaunchedFails s then (.error (.notLaunched (str "getUrl")), s)
  else (.ok currentUrl, s)

/-- `waitForSelector(selector, opts)`: `ensureLaunched`, then
`locator.first().waitFor(visible)`, whose timeout error propagates
unchanged. -/
def waitForSelector (waitResult : Except EngErr Unit) (selector : Str)
    (timeoutMs : Option Nat) (s : BMState) : Except BMError Unit × BMState :=
  if ensureLaunchedFails s then (.error (.notLaunched (str "waitForSelector")), s)
  else
    match waitResult with
    | .error e => (.error (.engine e), s)
    | .ok _ => (.ok (), s)

/-- `find(selector)`: `ensureLaunched`, then returns the lazy locator
(modelled by the selector it wraps) with no engine call. -/
def find (selector : Str) (s : BMState) : Except BMError Str × BMState :=
  if ensureLaunchedFails s then (.error (.notLaunched (str "find")), s)
  else (.ok selector, s)

/-- Decimal rendering of a `Nat`, for embedded error messages. -/
def natStr (n : Nat) : Str := (Nat.repr n).data

/-- The message of the wrap-and-rethrow error in `click`. -/
def clickFailMsg (selector : Str) (timeout : Nat) (cause : EngErr) : Str :=
  str "Click failed for selector \"" ++ selector ++ str "\" (timeout " ++
    natStr timeout ++ str "ms): " ++ cause

/-- The message of the wrap-and-rethrow error in `type`. -/
def typeFailMsg (selector : Str) (timeout : Nat) (cause : EngErr) : Str :=
  str "Type failed for selector \"" ++ selector ++ str "\" (timeout " ++
    natStr timeout ++ str "ms): " ++ cause

/-- `click(selector, opts)`: `ensureLaunched`, default the timeout from
configuration, then `locator.click`; an engine failure is wrapped with
selector and timeout context, preserving the cause. -/
def click (clickResult : Except EngErr Unit) (selector : Str)
    (timeoutMs : Option Nat) (s : BMState) : Except BMError Unit × BMState :=
  if ensureLaunchedFails s then (.error (.notLaunched (str "click")), s)
  else
    let timeout := timeoutMs.getD defaultConfig.defaultTimeoutMs
    match clickResult with
    | .error e => (.error (.wrapped (clickFailMsg selector timeout e) (.engine e)), s)
    | .ok _ => (.ok (), s)

/-- `type(selector, text, opts)`: `ensureLaunched`, default timeout and
`clear=true`, then optionally `locator.clear` followed by `locator.fill`;
failures are wrapped like `click`'s. -/
def type (clearResult fillResult : Except EngErr Unit) (selector : Str)
    (text : Str) (timeoutMs : Option Nat) (clear : Option Bool) (s : BMState) :
    Except BMError Unit × BMState :=
  if ensureLaunchedFails s then (.error (.notLaunched (str "type")), s)
  else
    let timeout := timeoutMs.getD defaultConfig.defaultTimeoutMs
    if clear.getD true then
      match clearResult with
      | .error e => (.error (.wrapped (typeFailMsg selector timeout e) (.engine e)), s)
      | .ok _ =>
        match fillResult with
        | .error e => (.error (.wrapped (typeFailMsg selector timeout e) (.engine e)), s)
        | .ok _ => (.ok (), s)
    else
      match fillResult with
      | .error e => (.error (.wrapped (typeFailMsg selector timeout e) (.engine e)), s)
      | .ok _ => (.ok (), s)

/-- A DOM bounding box as returned by `locator.boundingBox()`. -/
structure BoundingBox where
  x : Int
  y : Int
  width : Int
  height : Int
deriving Repr, DecidableEq

/-- The result value of `getElementInfo`. -/
structure ElementInfo where
  selector : Str
  found : Bool
  tag : Option Str
  text : Option Str
  boundingBox : Option BoundingBox
deriving Repr, DecidableEq

/-- Outcomes of the engine calls made by `getElementInfo`:
`waitFor(attached)`, `evaluate(tagName)`, `innerText()`, `boundingBox()`. -/
structure ElementQueryBehavior where
  waitAttached : Except EngErr Unit
  evaluateTag : Except EngErr Str
  innerText : Except EngErr Str
  boundingBox : Except EngErr (Option BoundingBox)

/-- The text truncation in `getElementInfo`: texts longer than 200
characters are cut to 200 characters plus an ellipsis. -/
def truncateText (t : Str) : Str :=
  if 200 < t.length then t.take 200 ++ str "..." else t

/-- `getElementInfo(selector, opts)`: `ensureLaunched`, then a try block
around all four engine calls whose catch-all converts any failure —
timeout, absence or a later evaluation error — into the normal
`found:false` result.  The `boundingBox` field is present only when the
engine returned a box. -/
def getElementInfo (b : ElementQueryBehavior) (selector : Str)
    (timeoutMs : Option Nat) (s : BMState) : Except BMError ElementInfo × BMState :=
  if ensureLaunchedFails s then (.error (.notLaunched (str "getElementInfo")), s)
  else
    match b.waitAttached with
    | .error _ => (.ok ⟨selector, false, none, none, none⟩, s)
    | .ok _ =>
      match b.evaluateTag with
      | .error _ => (.ok ⟨selector, false, none, none, none⟩, s)
      | .ok tg =>
        match b.innerText with
        | .error _ => (.ok ⟨selector, false, none, none, none⟩, s)
        | .ok tx =>
          match b.boundingBox with
          | .error _ => (.ok ⟨selector, false, none, none, none⟩, s)
          | .ok bb => (.ok ⟨selector, true, some tg, some (truncateText tx), bb⟩, s)

/-- What `screenshot` returns: the raw buffer, or its base64 rendering
(kept symbolic — the encoding itself is done by the runtime). -/
inductive ScreenshotData where
  | raw (buffer : Str)
  | base64Of (buffer : Str)
deriving Repr, DecidableEq

/-- `screenshot(opts)`: `ensureLaunched`, ensure the parent directory when
a path is given, then `page.screenshot`; with `returnBase64` the buffer is
base64-encoded.  No `BrowserManager` field is mutated. -/
def screenshot (shotResult : Except EngErr Str) (path : Option Str)
    (fullPage returnBase64 : Option Bool) (s : BMState) :
    Except BMError ScreenshotData × BMState :=
  if ensureLaunchedFails s then (.error (.notLaunched (str "screenshot")), s)
  else
    match shotResult with
    | .error e => (.error (.engine e), s)
    | .ok buf =>
      (.ok (if returnBase64.getD false then .base64Of buf else .raw buf), s)

/-- The handle clearing done by `quit`'s catch block. -/
def clearHandles (s : BMState) : BMState :=
  { s with browser := none, context := none, page := none }

/-- The tail of `quit`: `if (this.browser) { await close; null it }`,
with the shared catch block clearing everything on failure. -/
def closeBrowserStep (b : QuitBehavior) (s : BMState) :
    Except BMError Unit × BMState :=
  match s.browser with
  | none => (.ok (), s)
  | some _ =>
    match b.browserClose with
    | .error e => (.error (.engine e), clearHandles s)
    | .ok _ => (.ok (), { s with browser := none })

/-- `quit()`: `ensureLaunched`, then close page, context and browser in
order, nulling each field after its close; the catch block nulls all
three fields and re-raises the engine error. -/
def quit (b : QuitBehavior) (s : BMState) : Except BMError Unit × BMState :=
  if ensureLaunchedFails s then (.error (.notLaunched (str "quit")), s)
  else
    match b.pageClose with
    | .error e => (.error (.engine e), clearHandles s)
    | .ok _ =>
      let s1 := { s with page := none }
      match s1.context with
      | none => closeBrowserStep b s1
      | some _ =>
        match b.contextClose with
        | .error e => (.error (.engine e), clearHandles s1)
        | .ok _ => closeBrowserStep b { s1 with context := none }

/-- `shutdown()`: return at once when the re-entrancy flag is set;
otherwise set it, do nothing when no browser handle exists, else run
`quit` and swallow its error; the `finally` block resets the flag. -/
def shutdown (b : QuitBehavior) (s : BMState) : Except BMError Unit × BMState :=
  if s.isShuttingDown then (.ok (), s)
  else if s.browser.isNone then (.ok (), { s with isShuttingDown := false })
  else
    (.ok (), { (quit b { s with isShuttingDown := true }).2 with
                 isShuttingDown := false })

/-- One atomic `BrowserManager` operation, with arbitrary engine outcomes.
Each constructor relates a state to the state left by the corresponding
source method. -/
inductive Step : BMState → BMState → Prop where
  | ofLaunch (b : LaunchBehavior) (s : BMState) : Step s (launch b s).2
  | ofNavigate (g : Except EngErr Unit) (url : Str) (s : BMState) :
      Step s (navigate g url s).2
  | ofGetTitle (t : Except EngErr Str) (s : BMState) : Step s (getTitle t s).2
  | ofGetUrl (u : Str) (s : BMState) : Step s (getUrl u s).2
  | ofWaitForSelector (w : Except EngErr Unit) (sel : Str) (tmo : Option Nat)
      (s : BMState) : Step s (waitForSelector w sel tmo s).2
  | ofFind (sel : Str) (s : BMState) : Step s (find sel s).2
  | ofClick (c : Except EngErr Unit) (sel : Str) (tmo : Option Nat)
      (s : BMState) : Step s (click c sel tmo s).2
  | ofType (cl fl : Except EngErr Unit) (sel tx : Str) (tmo : Option Nat)
      (clr : Option Bool) (s : BMState) : Step s (type cl fl sel tx tmo clr s).2
  | ofGetElementInfo (b : ElementQueryBehavior) (sel : Str) (tmo : Option Nat)
      (s : BMState) : Step s (getElementInfo b sel tmo s).2
  | ofScreenshot (r : Except EngErr Str) (p : Option Str) (fp rb : Option Bool)
      (s : BMState) : Step s (screenshot r p fp rb s).2
  | ofQuit (b : QuitBehavior) (s : BMState) : Step s (quit b s).2
  | ofShutdown (b : QuitBehavior) (s : BMState) : Step s (shutdown b s).2

/-- States of the session manager reachable from process start by any
sequence of operations, successful or failing. -/
inductive Reach : BMState → Prop where
  | init : Reach initialState
  | step {s t : BMState} : Reach s → Step s t → Reach t

/-- Whether an `Except` outcome is a success. -/
def exceptOk {ε α : Type} : Except ε α → Bool
  | .ok _ => true
  | .error _ => false

/-- A launch run in which an engine failure, if any, happens at the very
first engine call (`chromium.launch`), before any handle is assigned. -/
def goodLaunch (b : LaunchBehavior) : Prop :=
  exceptOk b.chromiumLaunch = true →
    (exceptOk b.newContext = true ∧ exceptOk b.newPage = true)

instance (b : LaunchBehavior) : Decidable (goodLaunch b) := by
  unfold goodLaunch; infer_instance

/-- Like `Step`, but every failing `launch` fails at its first engine
call. -/
inductive GoodStep : BMState → BMState → Prop where
  | ofLaunch (b : LaunchBehavior) (s : BMState) (h : goodLaunch b) :
      GoodStep s (launch b s).2
  | ofNavigate (g : Except EngErr Unit) (url : Str) (s : BMState) :
      GoodStep s (navigate g url s).2
  | ofGetTitle (t : Except EngErr Str) (s : BMState) : GoodStep s (getTitle t s).2
  | ofGetUrl (u : Str) (s : BMState) : GoodStep s (getUrl u s).2
  | ofWaitForSelector (w : Except EngErr Unit) (sel : Str) (tmo : Option Nat)
      (s : BMState) : GoodStep s (waitForSelector w sel tmo s).2
  | ofFind (sel : Str) (s : BMState) : GoodStep s (find sel s).2
  | ofClick (c : Except EngErr Unit) (sel : Str) (tmo : Option Nat)
      (s : BMState) : GoodStep s (click c sel tmo s).2
  | ofType (cl fl : Except EngErr Unit) (sel tx : Str) (tmo : Option Nat)
      (clr : Option Bool) (s : BMState) : GoodStep s (type cl fl sel tx tmo clr s).2
  | ofGetElementInfo (b : ElementQueryBehavior) (sel : Str) (tmo : Option Nat)
      (s : BMState) : GoodStep s (getElementInfo b sel tmo s).2
  | ofScreenshot (r : Except EngErr Str) (p : Option Str) (fp rb : Option Bool)
      (s : BMState) : GoodStep s (screenshot r p fp rb s).2
  | ofQuit (b : QuitBehavior) (s : BMState) : GoodStep s (quit b s).2
  | ofShutdown (b : QuitBehavior) (s : BMState) : GoodStep s (shutdown b s).2

/-- Reachability restricted to `GoodStep` transitions. -/
inductive ReachGood : BMState → Prop where
  | init : ReachGood initialState
  | step {s t : BMState} : ReachGood s → GoodStep s t → ReachGood t

/-- One entry of the screenshot directory listing, as seen through
`readdir(withFileTypes)`: its name and whether it is a regular file. -/
structure DirEntry where
  name : Str
  isFile : Bool
deriving Repr, DecidableEq

/-- Matching semantics of the regex that `matchesPattern` builds from a
glob pattern: every character of the pattern is escaped to a literal
except `*`, which becomes `.*`, and the regex is anchored at both ends.
So `*` matches any run of characters and every other character matches
itself. -/
def globMatch : Str → Str → Bool
  | [], s => s.isEmpty
  | p :: ps, s =>
    if p = '*' then
      match s with
      | [] => globMatch ps []
      | _ :: cs => globMatch ps s || globMatch (p :: ps) cs
    else
      match s with
      | [] => false
      | c :: cs => p = c && globMatch ps cs
termination_by p s => (p.length, s.length)

/-- `matchesPattern(filename, pattern)` from `src/utils/fs.ts`. -/
def matchesPattern (filename pattern : Str) : Bool := globMatch pattern filename

/-- The declarative reading of the claim's glob semantics: `*` matches an
arbitrary run of characters, every other pattern character is literal. -/
def GlobSem : Str → Str → Prop
  | [], s => s = []
  | p :: ps, s =>
    if p = '*' then ∃ pre suf, s = pre ++ suf ∧ GlobSem ps suf
    else ∃ cs, s = p :: cs ∧ GlobSem ps cs

/-- The deletion predicate of `cleanDirectory`: regular files whose name
matches the pattern (all regular files when no pattern is given). -/
def entryDoomed (pattern : Option Str) (e : DirEntry) : Bool :=
  e.isFile &&
    (match pattern with
     | some pat => matchesPattern e.name pat
     | none => true)

/-- The loop of `cleanDirectory`: walk the entries, unlink each doomed
file and count it, keep everything else (non-matching files and all
subdirectories). -/
def cleanEntries (pattern : Option Str) : List DirEntry → Nat × List DirEntry
  | [] => (0, [])
  | e :: rest =>
    let r := cleanEntries pattern rest
    if entryDoomed pattern e then (r.1 + 1, r.2) else (r.1, e :: r.2)

/-- `cleanDirectory(dirPath, pattern)`: returns 0 untouched when the
directory does not exist (`pathExists` false), otherwise deletes the
doomed entries and returns the count.  The directory is modelled by its
listing, `none` meaning absent. -/
def cleanDirectory (dir : Option (List DirEntry)) (pattern : Option Str) :
    Nat × Option (List DirEntry) :=
  match dir with
  | none => (0, none)
  | some entries =>
    let r := cleanEntries pattern entries
    (r.1, some r.2)

/-- `BrowserManager.cleanScreenshots(pattern)`: resolves the configured
screenshot directory and delegates to `cleanDirectory` with the given
pattern (the source defaults the argument to "*.png"). -/
def cleanScreenshots (dir : Option (List DirEntry)) (pattern : Str) :
    Nat × Option (List DirEntry) :=
  cleanDirectory dir (some pattern)

/-- `cleanScreenshots()` with its default "*.png" pattern. -/
def cleanScreenshotsDefault (dir : Option (List DirEntry)) :
    Nat × Option (List DirEntry) :=
  cleanScreenshots dir (str "*.png")

/-- The calendar fields a JavaScript `Date` renders through
`toISOString()`. -/
structure JsTimestamp where
  year : Nat
  month : Nat
  day : Nat
  hour : Nat
  minute : Nat
  second : Nat
  millis : Nat
deriving Repr, DecidableEq

/-- The decimal digit character of `n mod 10`. -/
def digitChar (n : Nat) : Char :=
  match n % 10 with
  | 0 => '0' | 1 => '1' | 2 => '2' | 3 => '3' | 4 => '4'
  | 5 => '5' | 6 => '6' | 7 => '7' | 8 => '8' | _ => '9'

/-- Two-digit zero-padded rendering (for in-range field values). -/
def pad2 (n : Nat) : Str := [digitChar (n / 10), digitChar n]

/-- Three-digit zero-padded rendering. -/
def pad3 (n : Nat) : Str := [digitChar (n / 100), digitChar (n / 10), digitChar n]

/-- Four-digit zero-padded rendering. -/
def pad4 (n : Nat) : Str :=
  [digitChar (n / 1000), digitChar (n / 100), digitChar (n / 10), digitChar n]

/-- `Date.prototype.toISOString()` for in-range timestamps:
`YYYY-MM-DDTHH:MM:SS.mmmZ`. -/
def toISOString (t : JsTimestamp) : Str :=
  pad4 t.year ++ '-' :: pad2 t.month ++ '-' :: pad2 t.day ++
    'T' :: pad2 t.hour ++ ':' :: pad2 t.minute ++ ':' :: pad2 t.second ++
    '.' :: pad3 t.millis ++ ['Z']

/-- The global replace of `/[-:]/g` by the empty string. -/
def removeDashColon (s : Str) : Str :=
  s.filter (fun c => !(c = '-' || c = ':'))

/-- Does the string start with three decimal digits?  (The lookahead of
the `/\.\d{3}/` pattern after its dot.) -/
def startsWith3Digits : Str → Bool
  | a :: b :: d :: _ => a.isDigit && b.isDigit && d.isDigit
  | _ => false

/-- The replace of the first `/\.\d{3}/` match by the empty string: scan
left to right for a dot followed by three decimal digits and drop those
four characters. -/
def stripFirstMillis : Str → Str
  | [] => []
  | c :: rest =>
    if c = '.' && startsWith3Digits rest then rest.drop 3
    else c :: stripFirstMillis rest

/-- The timestamp part of `buildErrorScreenshotName`:
`toISOString().replace(/[-:]/g, '').replace(/\.\d{3}/, '')`. -/
def jsCompactTimestamp (t : JsTimestamp) : Str :=
  stripFirstMillis (removeDashColon (toISOString t))

/-- The character class `[^a-zA-Z0-9]` complement: is `c` alphanumeric? -/
def isAlnumCh (c : Char) : Bool :=
  ('a' ≤ c && c ≤ 'z') || ('A' ≤ c && c ≤ 'Z') || ('0' ≤ c && c ≤ '9')

/-- Map every non-alphanumeric character to an underscore. -/
def underscoreNonAlnum (s : Str) : Str :=
  s.map (fun c => if isAlnumCh c then c else '_')

/-- Collapse adjacent underscores to a single one; composed with
`underscoreNonAlnum` this is the replace of `/[^a-zA-Z0-9]+/g` by `_`
(each maximal run of non-alphanumeric characters becomes one
underscore). -/
def collapseUnderscores : Str → Str
  | [] => []
  | [c] => [c]
  | a :: b :: rest =>
    if a = '_' && b = '_' then collapseUnderscores (b :: rest)
    else a :: collapseUnderscores (b :: rest)

/-- The replace of `/^_+|_+$/g` by the empty string: strip leading and
trailing underscores. -/
def trimUnderscores (s : Str) : Str :=
  ((s.dropWhile (fun c => c = '_')).reverse.dropWhile (fun c => c = '_')).reverse

/-- The `safeName` computed by `buildErrorScreenshotName`: non-alphanumeric
runs replaced by single underscores, then leading and trailing underscores
stripped. -/
def sanitizeStepName (s : Str) : Str :=
  trimUnderscores (collapseUnderscores (underscoreNonAlnum s))

/-- The sanitisation the claim describes, in its own words: the step name
with non-alphanumeric runs replaced by underscores — and nothing more (no
trimming of the leading and trailing underscores this can produce). -/
def claimSanitizeStepName (s : Str) : Str :=
  collapseUnderscores (underscoreNonAlnum s)

/-- `buildErrorScreenshotName(stepName)` from the source:
`error-<compact timestamp>-<safeName>.png`. -/
def buildErrorScreenshotName (stepName : Str) (now : JsTimestamp) : Str :=
  str "error-" ++ jsCompactTimestamp now ++ '-' :: sanitizeStepName stepName ++
    str ".png"

/-- A screenshot the failure hook asked the engine for: target path and
the `fullPage` flag. -/
structure ScreenshotAttempt where
  path : Str
  fullPage : Bool
deriving Repr, DecidableEq

/-- `path.join` of a directory and a file name, kept un-normalised. -/
def joinPath (dir file : Str) : Str := dir ++ '/' :: file

/-- `captureErrorScreenshot(stepName)`: nothing is attempted without a
page; otherwise one full-page screenshot is attempted at
`<screenshotDir>/<buildErrorScreenshotName(stepName)>`, and the outcome of
that attempt — success or failure — is swallowed (the surrounding
try/catch only logs). -/
def captureErrorScreenshot (cfg : BrowserConfig) (now : JsTimestamp)
    (stepName : Str) (page : Option Nat) (shotResult : Except EngErr Str) :
    List ScreenshotAttempt :=
  match page with
  | none => []
  | some _ =>
    let attempt : ScreenshotAttempt :=
      ⟨joinPath cfg.screenshotDir (buildErrorScreenshotName stepName now), true⟩
    match shotResult with
    | .ok _ => [attempt]
    | .error _ => [attempt]

/-- `runStep(stepName, fn)`: log and time the body; on success return its
result with no screenshot attempted; on failure attempt the error
screenshot (best effort) and re-raise the body's original error. -/
def runStep {α : Type} (cfg : BrowserConfig) (now : JsTimestamp)
    (stepName : Str) (page : Option Nat) (body : Except BMError α)
    (shotResult : Except EngErr Str) :
    Except BMError α × List ScreenshotAttempt :=
  match body with
  | .ok a => (.ok a, [])
  | .error e => (.error e, captureErrorScreenshot cfg now stepName page shotResult)

/-- The four termination triggers `registerProcessHooks` installs handlers
for. -/
inductive ShutdownTrigger where
  | sigint
  | sigterm
  | uncaughtException
  | unhandledRejection
deriving Repr, DecidableEq

/-- The exit code each handler passes to `performShutdown`:
`ExitCode.SIGINT = 130` for the interrupt signal, `ExitCode.SUCCESS = 0`
for the termination signal, `ExitCode.ERROR = 1` for uncaught exceptions
and unhandled rejections. -/
def triggerExitCode : ShutdownTrigger → Nat
  | .sigint => 130
  | .sigterm => 0
  | .uncaughtException => 1
  | .unhandledRejection => 1

/-- `performShutdown(signal, exitCode)` from `src/core/processHooks.ts`,
as a function of the requested exit code, the cleanup callback's outcome
and the `isShuttingDown` flag.  Returns the exit code used by the
`process.exit` call (`none` when the trigger is ignored) and the new
flag: if already shutting down, return without acting; otherwise mark
shutting down and run the cleanup — exit with the requested code on
success, with `ExitCode.ERROR = 1` on failure. -/
def performShutdown (exitCode : Nat) (cleanupOk : Bool) (isShuttingDown : Bool) :
    Option Nat × Bool :=
  if isShuttingDown then (none, isShuttingDown)
  else ((if cleanupOk then some exitCode else some 1), true)

/-- The handler `registerProcessHooks` wires to a trigger: it calls
`performShutdown` with the trigger-specific exit code. -/
def handleTrigger (t : ShutdownTrigger) (cleanupOk : Bool) (flag : Bool) :
    Option Nat × Bool :=
  performShutdown (triggerExitCode t) cleanupOk flag

/-- One entry of the static catalogue `handleToolsList` responds with:
tool name, description, and its JSON schema flattened to the declared
property names and the `required` list. -/
structure ToolDecl where
  name : Str
  description : Str
  properties : List Str
  required : List Str
deriving Repr, DecidableEq

/-- The `tools` array literal inside `MCPServer.handleToolsList`
(`src/mcp/server.ts`), in source order. -/
def handleToolsListTools : List ToolDecl :=
  [⟨str "browser_launch", str "Start a browser session (visible by default)",
      [str "headless"], []⟩,
   ⟨str "browser_navigate", str "Go to a URL", [str "url"], [str "url"]⟩,
   ⟨str "browser_screenshot", str "Capture viewport (optionally save to file)",
      [str "filename", str "returnBase64", str "fullPage"], []⟩,
   ⟨str "browser_quit", str "Close the browser session", [], []⟩]

/-- The seven documented tool names, from the specification's tool
catalogue and from the `requiredTools` list the repository's own smoke
test (`tests/mcp.smoke.test.ts`) asserts against `tools/list`. -/
def documentedToolNames : List Str :=
  [str "browser_launch", str "browser_navigate", str "browser_find",
   str "browser_click", str "browser_type", str "browser_screenshot",
   str "browser_quit"]

/-- A tool handler's response: a success result wrapping a text content
item, or a JSON-RPC error with its code and message. -/
inductive MCPToolResponse where
  | success (text : Str)
  | rpcError (code : Int) (message : Str)
deriving Repr, DecidableEq

/-- `MCPServer.toolBrowserQuit`: delegates to `browserManager.shutdown()`
and answers "Browser session closed" on success; an exception would be
wrapped as a `-32603` internal error. -/
def toolBrowserQuit (b : QuitBehavior) (s : BMState) : MCPToolResponse × BMState :=
  match shutdown b s with
  | (.ok _, s2) => (.success (str "Browser session closed"), s2)
  | (.error e, s2) =>
    (.rpcError (-32603) (str "Failed to close browser: " ++ bmErrorMessage e), s2)

theorem navigate_snd (g : Except EngErr Unit) (url : Str) (s : BMState) :
    (navigate g url s).2 = s := by
  unfold navigate
  split
  · rfl
  · cases g <;> rfl

theorem getTitle_snd (t : Except EngErr Str) (s : BMState) :
    (getTitle t s).2 = s := by
  unfold getTitle
  split
  · rfl
  · cases t <;> rfl

theorem getUrl_snd (u : Str) (s : BMState) : (getUrl u s).2 = s := by
  unfold getUrl
  split <;> rfl

theorem waitForSelector_snd (w : Except EngErr Unit) (sel : Str)
    (tmo : Option Nat) (s : BMState) : (waitForSelector w sel tmo s).2 = s := by
  unfold waitForSelector
  split
  · rfl
  · cases w <;> rfl

theorem find_snd (sel : Str) (s : BMState) : (find sel s).2 = s := by
  unfold find
  split <;> rfl

theorem click_snd (c : Except EngErr Unit) (sel : Str) (tmo : Option Nat)
    (s : BMState) : (click c sel tmo s).2 = s := by
  unfold click
  split
  · rfl
  · cases c <;> rfl

theorem type_snd (cl fl : Except EngErr Unit) (sel tx : Str) (tmo : Option Nat)
    (clr : Option Bool) (s : BMState) : (type cl fl sel tx tmo clr s).2 = s := by
  unfold type
  split
  · rfl
  · split
    · cases cl
      · rfl
      · cases fl <;> rfl
    · cases fl <;> rfl

theorem getElementInfo_snd (b : ElementQueryBehavior) (sel : Str)
    (tmo : Option Nat) (s : BMState) : (getElementInfo b sel tmo s).2 = s := by
  unfold getElementInfo
  split
  · rfl
  · cases b.waitAttached
    · rfl
    · cases b.evaluateTag
      · rfl
      · cases b.innerText
        · rfl
        · cases b.boundingBox <;> rfl

theorem screenshot_snd (r : Except EngErr Str) (p : Option Str)
    (fp rb : Option Bool) (s : BMState) : (screenshot r p fp rb s).2 = s := by
  unfold screenshot
  split
  · rfl
  · cases r <;> rfl

theorem launch_cases (b : LaunchBehavior) (s : BMState) :
    (launch b s).2 = s ∨ (launch b s).2.browser.isSome = true := by
  unfold launch
  split
  · exact Or.inl rfl
  · cases b.chromiumLaunch with
    | error e => exact Or.inl rfl
    | ok br =>
      cases b.newContext with
      | error e => exact Or.inr rfl
      | ok ctx =>
        cases b.newPage with
        | error e => exact Or.inr rfl
        | ok pg => exact Or.inr rfl

theorem launch_good_cases (b : LaunchBehavior) (s : BMState) (h : goodLaunch b) :
    (launch b s).2 = s ∨
      ((launch b s).2.browser.isSome = true ∧ (launch b s).2.page.isSome = true) := by
  unfold launch
  split
  · exact Or.inl rfl
  · cases hc : b.chromiumLaunch with
    | error e => exact Or.inl rfl
    | ok br =>
      have hg := h (by rw [hc]; rfl)
      cases hn : b.newContext with
      | error e =>
        rw [hn] at hg
        simp [exceptOk] at hg
      | ok ctx =>
        cases hp : b.newPage with
        | error e =>
          rw [hp] at hg
          simp [exceptOk] at hg
        | ok pg => exact Or.inr ⟨rfl, rfl⟩

theorem quit_cases (b : QuitBehavior) (s : BMState) :
    (quit b s).2 = s ∨
      ((quit b s).2.browser = none ∧ (quit b s).2.context = none ∧
        (quit b s).2.page = none) := by
  rcases s with ⟨br, ctx, pg, fl⟩
  unfold quit
  split
  · exact Or.inl rfl
  · rename_i hguard
    cases br with
    | none => exact absurd rfl hguard
    | some b0 =>
      cases b.pageClose with
      | error e => exact Or.inr ⟨rfl, rfl, rfl⟩
      | ok u =>
        cases ctx with
        | none =>
          unfold closeBrowserStep
          cases b.browserClose with
          | error e => exact Or.inr ⟨rfl, rfl, rfl⟩
          | ok u2 => exact Or.inr ⟨rfl, rfl, rfl⟩
        | some c0 =>
          cases b.contextClose with
          | error e => exact Or.inr ⟨rfl, rfl, rfl⟩
          | ok u2 =>
            unfold closeBrowserStep
            cases b.browserClose with
            | error e => exact Or.inr ⟨rfl, rfl, rfl⟩
            | ok u3 => exact Or.inr ⟨rfl, rfl, rfl⟩

theorem quit_clears (b : QuitBehavior) (s : BMState)
    (hb : s.browser.isSome = true) (hp : s.page.isSome = true) :
    (quit b s).2.browser = none ∧ (quit b s).2.context = none ∧
      (quit b s).2.page = none := by
  rcases s with ⟨br, ctx, pg, fl⟩
  cases br with
  | none => simp at hb
  | some b0 =>
    cases pg with
    | none => simp at hp
    | some p0 =>
      cases hpc : b.pageClose <;>
        cases hcc : b.contextClose <;>
          cases hbc : b.browserClose <;>
            cases ctx <;>
              simp [quit, closeBrowserStep, clearHandles, ensureLaunchedFails,
                hpc, hcc, hbc]

theorem shutdown_fst (b : QuitBehavior) (s : BMState) :
    (shutdown b s).1 = .ok () := by
  unfold shutdown
  split
  · rfl
  · split <;> rfl

theorem shutdown_flagged (b : QuitBehavior) (s : BMState)
    (h : s.isShuttingDown = true) : shutdown b s = (.ok (), s) := by
  unfold shutdown
  rw [h]
  rfl

theorem shutdown_cases (b : QuitBehavior) (s : BMState) :
    (shutdown b s).2 = s ∨ (shutdown b s).2 = { s with isShuttingDown := false } ∨
      ((shutdown b s).2.browser = none ∧ (shutdown b s).2.context = none ∧
        (shutdown b s).2.page = none) := by
  rcases s with ⟨br, ctx, pg, fl⟩
  unfold shutdown
  split
  · exact Or.inl rfl
  · split
    · exact Or.inr (Or.inl rfl)
    · rcases quit_cases b ⟨br, ctx, pg, true⟩ with hq | hq
      · rw [hq]
        exact Or.inr (Or.inl rfl)
      · refine Or.inr (Or.inr ?_)
        simp only
        exact ⟨hq.1, hq.2.1, hq.2.2⟩

theorem shutdown_noBrowser (b : QuitBehavior) (s : BMState)
    (hb : s.browser = none) (hf : s.isShuttingDown = false) :
    shutdown b s = (.ok (), s) := by
  rcases s with ⟨br, ctx, pg, fl⟩
  simp only at hb hf
  subst hb hf
  rfl

theorem shutdown_on_partial_launch (b : QuitBehavior) (s : BMState)
    (hb : s.browser.isSome = true) (hp : s.page = none)
    (hf : s.isShuttingDown = false) : shutdown b s = (.ok (), s) := by
  rcases s with ⟨br, ctx, pg, fl⟩
  simp only at hp hf
  subst hp hf
  cases br with
  | none => simp at hb
  | some b0 => rfl

theorem shutdown_clears (b : QuitBehavior) (s : BMState)
    (hb : s.browser.isSome = true) (hp : s.page.isSome = true)
    (hf : s.isShuttingDown = false) :
    (shutdown b s).2.browser = none ∧ (shutdown b s).2.context = none ∧
      (shutdown b s).2.page = none := by
  rcases s with ⟨br, ctx, pg, fl⟩
  simp only at hf
  subst hf
  have hq := quit_clears b ⟨br, ctx, pg, true⟩ hb hp
  cases br with
  | none => simp at hb
  | some b0 => exact hq

theorem step_preserves_pageImpBrowser {s t : BMState} (hst : Step s t)
    (h : s.page.isSome = true → s.browser.isSome = true) :
    t.page.isSome = true → t.browser.isSome = true := by
  cases hst with
  | ofLaunch b s =>
    rcases launch_cases b s with he | hb2
    · rw [he]; exact h
    · exact fun _ => hb2
  | ofNavigate g url s => rw [navigate_snd]; exact h
  | ofGetTitle t s => rw [getTitle_snd]; exact h
  | ofGetUrl u s => rw [getUrl_snd]; exact h
  | ofWaitForSelector w sel tmo s => rw [waitForSelector_snd]; exact h
  | ofFind sel s => rw [find_snd]; exact h
  | ofClick c sel tmo s => rw [click_snd]; exact h
  | ofType cl fl sel tx tmo clr s => rw [type_snd]; exact h
  | ofGetElementInfo b sel tmo s => rw [getElementInfo_snd]; exact h
  | ofScreenshot r p fp rb s => rw [screenshot_snd]; exact h
  | ofQuit b s =>
    rcases quit_cases b s with he | hc
    · rw [he]; exact h
    · intro hp
      rw [hc.2.2] at hp
      simp at hp
  | ofShutdown b s =>
    rcases shutdown_cases b s with he | he | hc
    · rw [he]; exact h
    · rw [he]; exact h
    · intro hp
      rw [hc.2.2] at hp
      simp at hp

theorem goodStep_preserves_iff {s t : BMState} (hst : GoodStep s t)
    (h : s.page.isSome = true ↔ s.browser.isSome = true) :
    t.page.isSome = true ↔ t.browser.isSome = true := by
  cases hst with
  | ofLaunch b s hg =>
    rcases launch_good_cases b s hg with he | hb2
    · rw [he]; exact h
    · rw [hb2.1, hb2.2]
  | ofNavigate g url s => rw [navigate_snd]; exact h
  | ofGetTitle t s => rw [getTitle_snd]; exact h
  | ofGetUrl u s => rw [getUrl_snd]; exact h
  | ofWaitForSelector w sel tmo s => rw [waitForSelector_snd]; exact h
  | ofFind sel s => rw [find_snd]; exact h
  | ofClick c sel tmo s => rw [click_snd]; exact h
  | ofType cl fl sel tx tmo clr s => rw [type_snd]; exact h
  | ofGetElementInfo b sel tmo s => rw [getElementInfo_snd]; exact h
  | ofScreenshot r p fp rb s => rw [screenshot_snd]; exact h
  | ofQuit b s =>
    rcases quit_cases b s with he | hc
    · rw [he]; exact h
    · rw [hc.1, hc.2.2]
  | ofShutdown b s =>
    rcases shutdown_cases b s with he | he | hc
    · rw [he]; exact h
    · rw [he]; simp only; exact h
    · rw [hc.1, hc.2.2]

/-- Claim C2 (counterexample): the invariant "page handle non-null iff
engine handle non-null in every reachable state, including failing
operations" is false as stated.  A `launch` whose `newContext` engine call
fails is reachable from the initial state and leaves the browser handle
assigned with the page handle still null. -/
theorem C2_counterexample :
    Reach (launch ⟨.ok 1, .error (str "newContext failed"), .ok 1⟩ initialState).2 ∧
      ¬(((launch ⟨.ok 1, .error (str "newContext failed"), .ok 1⟩
            initialState).2.page.isSome = true) ↔
        ((launch ⟨.ok 1, .error (str "newContext failed"), .ok 1⟩
            initialState).2.browser.isSome = true)) := by
  constructor
  · exact Reach.step Reach.init (Step.ofLaunch _ _)
  · decide

/-- Claim C2 (amended): in every reachable state of the session manager a
non-null page handle implies a non-null engine handle; the full
"non-null iff non-null" invariant holds on every state reachable when
each failing launch fails at its initial engine-launch call — a launch
whose context or page creation fails instead leaves the engine handle set
with no page. -/
theorem C2_session_invariant :
    (∀ s : BMState, Reach s → (s.page.isSome = true → s.browser.isSome = true)) ∧
    (∀ s : BMState, ReachGood s →
      (s.page.isSome = true ↔ s.browser.isSome = true)) := by
  constructor
  · intro s hs
    induction hs with
    | init => intro hp; simp [initialState] at hp
    | step hr hst ih => exact step_preserves_pageImpBrowser hst ih
  · intro s hs
    induction hs with
    | init => simp [initialState]
    | step hr hst ih => exact goodStep_preserves_iff hst ih

/-- Claim C2 witness: the invariant theorem applied at the initial state
and at the state left by a fully successful launch. -/
theorem C2_session_invariant_witness :
    ((initialState.page.isSome = true → initialState.browser.isSome = true) ∧
      (initialState.page.isSome = true ↔ initialState.browser.isSome = true)) ∧
    (((launch ⟨.ok 1, .ok 1, .ok 1⟩ initialState).2.page.isSome = true) ↔
      ((launch ⟨.ok 1, .ok 1, .ok 1⟩ initialState).2.browser.isSome = true)) :=
  ⟨⟨C2_session_invariant.1 initialState Reach.init,
    C2_session_invariant.2 initialState ReachGood.init⟩,
   C2_session_invariant.2 _
     (ReachGood.step ReachGood.init
       (GoodStep.ofLaunch ⟨.ok 1, .ok 1, .ok 1⟩ initialState (by decide)))⟩

/-- Claim C3: whenever a session is active (the browser handle is
non-null, as after a successful launch with no intervening quit or
shutdown), a second `launch` — whatever its engine would do — fails with
the AlreadyLaunchedError and returns the state entirely unchanged. -/
theorem C3_second_launch_fails (b : LaunchBehavior) (s : BMState)
    (h : s.browser.isSome = true) :
    launch b s = (.error .alreadyLaunched, s) := by
  simp [launch, h]

/-- Claim C3 witness: a second launch against a fully launched concrete
session. -/
theorem C3_second_launch_fails_witness :
    launch ⟨.ok 2, .ok 2, .ok 2⟩ ⟨some 1, some 1, some 1, false⟩ =
      (.error .alreadyLaunched, ⟨some 1, some 1, some 1, false⟩) :=
  C3_second_launch_fails ⟨.ok 2, .ok 2, .ok 2⟩ ⟨some 1, some 1, some 1, false⟩ rfl

/-- Claim C4: with no active session (both the browser and the page handle
null, as before any launch or after a quit) every operation requiring a
launched session — navigate, getTitle, getUrl, waitForSelector, find,
click, type, getElementInfo, screenshot, quit — fails with its
NotLaunchedError and leaves the state unchanged, whatever the engine
would have answered. -/
theorem C4_operations_require_launch (s : BMState)
    (hb : s.browser = none) (hp : s.page = none) :
    (∀ g url, navigate g url s = (.error (.notLaunched (str "navigate")), s)) ∧
    (∀ t, getTitle t s = (.error (.notLaunched (str "getTitle")), s)) ∧
    (∀ u, getUrl u s = (.error (.notLaunched (str "getUrl")), s)) ∧
    (∀ w sel tmo, waitForSelector w sel tmo s =
      (.error (.notLaunched (str "waitForSelector")), s)) ∧
    (∀ sel, find sel s = (.error (.notLaunched (str "find")), s)) ∧
    (∀ c sel tmo, click c sel tmo s = (.error (.notLaunched (str "click")), s)) ∧
    (∀ cl fl sel tx tmo clr, type cl fl sel tx tmo clr s =
      (.error (.notLaunched (str "type")), s)) ∧
    (∀ b sel tmo, getElementInfo b sel tmo s =
      (.error (.notLaunched (str "getElementInfo")), s)) ∧
    (∀ r p fp rb, screenshot r p fp rb s =
      (.error (.notLaunched (str "screenshot")), s)) ∧
    (∀ b, quit b s = (.error (.notLaunched (str "quit")), s)) := by
  have hf : ensureLaunchedFails s = true := by
    simp [ensureLaunchedFails, hb]
  refine ⟨fun g url => ?_, fun t => ?_, fun u => ?_, fun w sel tmo => ?_,
    fun sel => ?_, fun c sel tmo => ?_, fun cl fl sel tx tmo clr => ?_,
    fun b sel tmo => ?_, fun r p fp rb => ?_, fun b => ?_⟩ <;>
    simp [navigate, getTitle, getUrl, waitForSelector, find, click, type,
      getElementInfo, screenshot, quit, hf]

/-- Claim C4 witness: two of the guarded operations applied at the
initial (never launched) state. -/
theorem C4_operations_require_launch_witness :
    navigate (.ok ()) (str "https://example.com") initialState =
      (.error (.notLaunched (str "navigate")), initialState) ∧
    quit ⟨.ok (), .ok (), .ok ()⟩ initialState =
      (.error (.notLaunched (str "quit")), initialState) :=
  ⟨(C4_operations_require_launch initialState rfl rfl).1 (.ok ())
      (str "https://example.com"),
   (C4_operations_require_launch initialState rfl rfl).2.2.2.2.2.2.2.2.2
      ⟨.ok (), .ok (), .ok ()⟩⟩

/-- Claim C5 (counterexample): "any error raised by the inner quit() is
swallowed, with the session handles still cleared" fails in the
partially-launched state (engine handle set, page null): the inner `quit`
throws its NotLaunchedError, `shutdown` swallows it and returns normally,
but the browser handle is left in place. -/
theorem C5_counterexample :
    exceptOk (quit ⟨.ok (), .ok (), .ok ()⟩
        (⟨some 1, none, none, false⟩ : BMState)).1 = false ∧
    shutdown ⟨.ok (), .ok (), .ok ()⟩ (⟨some 1, none, none, false⟩ : BMState) =
      (.ok (), ⟨some 1, none, none, false⟩) ∧
    Reach (⟨some 1, none, none, false⟩ : BMState) := by
  refine ⟨by decide, rfl, ?_⟩
  exact Reach.step Reach.init
    (Step.ofLaunch ⟨.ok 1, .error (str "newContext failed"), .ok 1⟩ initialState)

/-- Claim C5 (amended): `shutdown()` never throws, for every starting
state: when no browser handle exists it is a no-op, when a shutdown is
already in progress it returns immediately without acting, and any error
raised by the inner `quit()` is swallowed.  When the session is fully
launched (page handle present) the handles are still cleared; in a
partially-launched state (engine handle without page) the swallowed
error is quit's NotLaunchedError and the handles remain as they were. -/
theorem C5_shutdown_never_throws :
    (∀ b s, (shutdown b s).1 = .ok ()) ∧
    (∀ b s, s.isShuttingDown = true → shutdown b s = (.ok (), s)) ∧
    (∀ b s, s.browser = none → s.isShuttingDown = false →
      shutdown b s = (.ok (), s)) ∧
    (∀ b s, s.browser.isSome = true → s.page.isSome = true →
      s.isShuttingDown = false →
      ((shutdown b s).2.browser = none ∧ (shutdown b s).2.context = none ∧
        (shutdown b s).2.page = none)) ∧
    (∀ b s, s.browser.isSome = true → s.page = none →
      s.isShuttingDown = false → shutdown b s = (.ok (), s)) :=
  ⟨shutdown_fst, shutdown_flagged, shutdown_noBrowser, shutdown_clears,
    shutdown_on_partial_launch⟩

/-- Claim C5 witness: the amended theorem applied at a fully launched
state and at the initial state. -/
theorem C5_shutdown_never_throws_witness :
    ((shutdown ⟨.ok (), .ok (), .ok ()⟩
        (⟨some 1, some 1, some 1, false⟩ : BMState)).2.browser = none) ∧
    shutdown ⟨.ok (), .ok (), .ok ()⟩ initialState = (.ok (), initialState) :=
  ⟨(C5_shutdown_never_throws.2.2.2.1 ⟨.ok (), .ok (), .ok ()⟩
      ⟨some 1, some 1, some 1, false⟩ rfl rfl rfl).1,
   C5_shutdown_never_throws.2.2.1 ⟨.ok (), .ok (), .ok ()⟩ initialState rfl rfl⟩

/-- Claim C9: a trigger arriving while a shutdown is already in progress
is ignored; otherwise the process exits with 130 for the interrupt
signal, 0 for the termination signal when cleanup succeeds, 1 for an
uncaught fault or an unhandled rejection, and 1 whenever the cleanup
callback fails. -/
theorem C9_exit_codes (t : ShutdownTrigger) (ok : Bool) :
    (handleTrigger t ok true = (none, true)) ∧
    (handleTrigger .sigint true false = (some 130, true)) ∧
    (handleTrigger .sigterm true false = (some 0, true)) ∧
    (handleTrigger .uncaughtException ok false = (some 1, true)) ∧
    (handleTrigger .unhandledRejection ok false = (some 1, true)) ∧
    (handleTrigger t false false = (some 1, true)) := by
  cases t <;> cases ok <;> decide

/-- Claim C1: the `tools/list` catalogue of the protocol server contains
only 4 tool names — browser_launch, browser_navigate, browser_screenshot,
browser_quit — not the 7 documented ones; browser_find, browser_click and
browser_type, asserted by the repository's own smoke test, are absent. -/
theorem C1_toolsList_missing_tools :
    handleToolsListTools.map ToolDecl.name =
      [str "browser_launch", str "browser_navigate", str "browser_screenshot",
        str "browser_quit"] ∧
    (handleToolsListTools.map ToolDecl.name).length = 4 ∧
    documentedToolNames.length = 7 ∧
    ¬(str "browser_find" ∈ handleToolsListTools.map ToolDecl.name) ∧
    ¬(str "browser_click" ∈ handleToolsListTools.map ToolDecl.name) ∧
    ¬(str "browser_type" ∈ handleToolsListTools.map ToolDecl.name) ∧
    handleToolsListTools.map ToolDecl.name ≠ documentedToolNames := by
  decide

/-- Claim C10: calling the browser_quit tool with no session ever
launched (or after a previous quit) succeeds with the text
"Browser session closed" instead of erroring, because the handler
delegates to the idempotent `shutdown()`; a direct `quit()` at the same
state would raise the NotLaunchedError. -/
theorem C10_browserQuit_without_session (b : QuitBehavior) (s : BMState)
    (hb : s.browser = none) (hp : s.page = none) :
    (toolBrowserQuit b s).1 = .success (str "Browser session closed") ∧
    (toolBrowserQuit b s).2.browser = none ∧
    (toolBrowserQuit b s).2.page = none ∧
    (quit b s).1 = .error (.notLaunched (str "quit")) := by
  have h1 := shutdown_fst b s
  have hcases := shutdown_cases b s
  rcases hsd : shutdown b s with ⟨r, s2⟩
  rw [hsd] at h1 hcases
  simp only at h1 hcases
  subst h1
  refine ⟨?_, ?_, ?_, ?_⟩
  · simp [toolBrowserQuit, hsd]
  · simp only [toolBrowserQuit, hsd]
    rcases hcases with he | he | hc
    · rw [he, hb]
    · rw [he]; exact hb
    · exact hc.1
  · simp only [toolBrowserQuit, hsd]
    rcases hcases with he | he | hc
    · rw [he, hp]
    · rw [he]; exact hp
    · exact hc.2.2
  · have hf : ensureLaunchedFails s = true := by simp [ensureLaunchedFails, hb]
    simp [quit, hf]

/-- Claim C10 witness: the browser_quit handler at the initial, never
launched state. -/
theorem C10_browserQuit_without_session_witness :
    (toolBrowserQuit ⟨.ok (), .ok (), .ok ()⟩ initialState).1 =
      .success (str "Browser session closed") :=
  (C10_browserQuit_without_session ⟨.ok (), .ok (), .ok ()⟩ initialState
    rfl rfl).1

theorem digitChar_keep (n : Nat) :
    (!(digitChar n = '-' || digitChar n = ':')) = true := by
  unfold digitChar
  split <;> decide

theorem digitChar_ne_dot (n : Nat) : ¬(digitChar n = '.') := by
  unfold digitChar
  split <;> decide

theorem removeDashColon_digit (n : Nat) (l : Str) :
    removeDashColon (digitChar n :: l) = digitChar n :: removeDashColon l := by
  unfold removeDashColon
  rw [List.filter_cons_of_pos]
  exact digitChar_keep n

theorem removeDashColon_dash (l : Str) :
    removeDashColon ('-' :: l) = removeDashColon l := by
  unfold removeDashColon
  rw [List.filter_cons_of_neg]
  decide

theorem removeDashColon_colon (l : Str) :
    removeDashColon (':' :: l) = removeDashColon l := by
  unfold removeDashColon
  rw [List.filter_cons_of_neg]
  decide

theorem removeDashColon_keep (c : Char) (l : Str)
    (h : (!(c = '-' || c = ':')) = true) :
    removeDashColon (c :: l) = c :: removeDashColon l := by
  unfold removeDashColon
  rw [List.filter_cons_of_pos]
  exact h

theorem removeDashColon_T (l : Str) :
    removeDashColon ('T' :: l) = 'T' :: removeDashColon l :=
  removeDashColon_keep _ _ (by decide)

theorem removeDashColon_dot (l : Str) :
    removeDashColon ('.' :: l) = '.' :: removeDashColon l :=
  removeDashColon_keep _ _ (by decide)

theorem removeDashColon_Z (l : Str) :
    removeDashColon ('Z' :: l) = 'Z' :: removeDashColon l :=
  removeDashColon_keep _ _ (by decide)

theorem removeDashColon_nil : removeDashColon [] = [] := rfl

theorem removeDashColon_iso (t : JsTimestamp) :
    removeDashColon (toISOString t) =
      pad4 t.year ++ pad2 t.month ++ pad2 t.day ++
        'T' :: (pad2 t.hour ++ pad2 t.minute ++ pad2 t.second ++
          '.' :: pad3 t.millis ++ ['Z']) := by
  unfold toISOString pad4 pad3 pad2
  simp only [List.cons_append, List.nil_append, List.append_assoc]
  simp only [removeDashColon_digit, removeDashColon_dash, removeDashColon_colon,
    removeDashColon_T, removeDashColon_dot, removeDashColon_Z,
    removeDashColon_nil]

theorem digitChar_isDigit (n : Nat) : (digitChar n).isDigit = true := by
  unfold digitChar
  split <;> decide

theorem stripFirstMillis_keep (c : Char) (l : Str) (h : ¬(c = '.')) :
    stripFirstMillis (c :: l) = c :: stripFirstMillis l := by
  simp [stripFirstMillis, h]

theorem stripFirstMillis_digitChar (n : Nat) (l : Str) :
    stripFirstMillis (digitChar n :: l) = digitChar n :: stripFirstMillis l :=
  stripFirstMillis_keep _ _ (digitChar_ne_dot n)

theorem stripFirstMillis_T (l : Str) :
    stripFirstMillis ('T' :: l) = 'T' :: stripFirstMillis l :=
  stripFirstMillis_keep _ _ (by decide)

theorem stripFirstMillis_dot3 (a b d : Char) (r : Str) (ha : a.isDigit = true)
    (hb : b.isDigit = true) (hd : d.isDigit = true) :
    stripFirstMillis ('.' :: a :: b :: d :: r) = r := by
  simp [stripFirstMillis, startsWith3Digits, ha, hb, hd]

theorem jsCompactTimestamp_eq (t : JsTimestamp) :
    jsCompactTimestamp t =
      pad4 t.year ++ pad2 t.month ++ pad2 t.day ++
        'T' :: (pad2 t.hour ++ pad2 t.minute ++ pad2 t.second ++ ['Z']) := by
  unfold jsCompactTimestamp
  rw [removeDashColon_iso]
  unfold pad4 pad3 pad2
  simp only [List.cons_append, List.nil_append, List.append_assoc]
  simp only [stripFirstMillis_digitChar, stripFirstMillis_T,
    stripFirstMillis_dot3 _ _ _ _ (digitChar_isDigit _) (digitChar_isDigit _)
      (digitChar_isDigit _)]

/-- Claim C6 (counterexample): the error-screenshot name is not
`error-<timestamp>-<step name with non-alphanumeric runs replaced by
underscores>.png` as the claim states it.  At the failing step named
`click "a"` (the click step-runner name for selector `a`) the runner
attempts `error-20260127T153010Z-click_a.png` — the trailing underscore
the claim's formula produces for the closing quote has been trimmed. -/
theorem C6_counterexample :
    (runStep defaultConfig ⟨2026, 1, 27, 15, 30, 10, 123⟩ (str "click \"a\"")
        (some 1) (Except.error BMError.alreadyLaunched : Except BMError Unit)
        (.ok (str "buffer"))).2 =
      [⟨str "./screenshots/error-20260127T153010Z-click_a.png", true⟩] ∧
    claimSanitizeStepName (str "click \"a\"") = str "click_a_" ∧
    buildErrorScreenshotName (str "click \"a\"") ⟨2026, 1, 27, 15, 30, 10, 123⟩ ≠
      str "error-" ++ jsCompactTimestamp ⟨2026, 1, 27, 15, 30, 10, 123⟩ ++
        '-' :: claimSanitizeStepName (str "click \"a\"") ++ str ".png" := by
  refine ⟨?_, by decide, by decide⟩
  decide

/-- Claim C6 (amended): a failing step run through the step-runner
attempts exactly one full-page screenshot named
`error-<ISO8601 timestamp without colons, dashes, or milliseconds>-<step
name with non-alphanumeric runs replaced by underscores and leading and
trailing underscores trimmed>.png` in the screenshot directory and then
re-raises the step's original error unchanged; without a page no attempt
is made; and the attempt's own outcome — success or failure — never
changes the propagated error. -/
theorem C6_error_screenshot_hook :
    (∀ (cfg : BrowserConfig) (now : JsTimestamp) (stepName : Str) (pg : Nat)
        (body : Except BMError Unit) (shot : Except EngErr Str) (e : BMError),
        body = .error e →
        runStep cfg now stepName (some pg) body shot =
          (.error e,
            [⟨joinPath cfg.screenshotDir (buildErrorScreenshotName stepName now),
              true⟩])) ∧
    (∀ (cfg : BrowserConfig) (now : JsTimestamp) (stepName : Str)
        (body : Except BMError Unit) (shot : Except EngErr Str) (e : BMError),
        body = .error e →
        runStep cfg now stepName none body shot = (.error e, [])) ∧
    (∀ now : JsTimestamp,
        jsCompactTimestamp now =
          pad4 now.year ++ pad2 now.month ++ pad2 now.day ++
            'T' :: (pad2 now.hour ++ pad2 now.minute ++ pad2 now.second ++
              ['Z'])) ∧
    (∀ stepName : Str,
        sanitizeStepName stepName =
          trimUnderscores (claimSanitizeStepName stepName)) ∧
    (∀ (stepName : Str) (now : JsTimestamp),
        buildErrorScreenshotName stepName now =
          str "error-" ++ jsCompactTimestamp now ++
            '-' :: sanitizeStepName stepName ++ str ".png") := by
  refine ⟨?_, ?_, jsCompactTimestamp_eq, fun stepName => rfl,
    fun stepName now => rfl⟩
  · intro cfg now stepName pg body shot e hbody
    subst hbody
    cases shot <;> rfl
  · intro cfg now stepName body shot e hbody
    subst hbody
    rfl

/-- Claim C6 witness: the amended theorem applied to a concrete failing
launch step, with and without a page. -/
theorem C6_error_screenshot_hook_witness :
    runStep defaultConfig ⟨2026, 1, 27, 15, 30, 10, 123⟩ (str "launch")
        (some 1) (Except.error BMError.alreadyLaunched : Except BMError Unit)
        (.ok (str "buffer")) =
      (.error BMError.alreadyLaunched,
        [⟨joinPath defaultConfig.screenshotDir
            (buildErrorScreenshotName (str "launch")
              ⟨2026, 1, 27, 15, 30, 10, 123⟩), true⟩]) ∧
    runStep defaultConfig ⟨2026, 1, 27, 15, 30, 10, 123⟩ (str "launch") none
        (Except.error BMError.alreadyLaunched : Except BMError Unit)
        (.error (str "no page")) =
      (.error BMError.alreadyLaunched, []) :=
  ⟨C6_error_screenshot_hook.1 defaultConfig ⟨2026, 1, 27, 15, 30, 10, 123⟩
      (str "launch") 1 _ (.ok (str "buffer")) BMError.alreadyLaunched rfl,
   C6_error_screenshot_hook.2.1 defaultConfig ⟨2026, 1, 27, 15, 30, 10, 123⟩
      (str "launch") _ (.error (str "no page")) BMError.alreadyLaunched rfl⟩

/-- Claim C7: on a launched session `getElementInfo` never raises: its
result is always a normal `ok` value and the state is untouched; when the
attach wait (or any later engine call the catch-all also covers) fails it
returns the `found:false` record; when the element attaches and the
engine answers the follow-up calls it returns `found:true` with the tag,
the text truncated to at most 200 characters plus an ellipsis when
longer, and the bounding box when one exists. -/
theorem C7_getElementInfo_total (b : ElementQueryBehavior) (sel : Str)
    (tmo : Option Nat) (s : BMState) (hb : s.browser.isSome = true)
    (hp : s.page.isSome = true) :
    (∃ info, (getElementInfo b sel tmo s).1 = .ok info) ∧
    (getElementInfo b sel tmo s).2 = s ∧
    (∀ e, b.waitAttached = .error e →
      (getElementInfo b sel tmo s).1 = .ok ⟨sel, false, none, none, none⟩) ∧
    (∀ tg tx bb, b.waitAttached = .ok () → b.evaluateTag = .ok tg →
      b.innerText = .ok tx → b.boundingBox = .ok bb →
      (getElementInfo b sel tmo s).1 =
        .ok ⟨sel, true, some tg, some (truncateText tx), bb⟩) ∧
    (∀ tx : Str, (tx.length ≤ 200 → truncateText tx = tx) ∧
      (200 < tx.length → truncateText tx = tx.take 200 ++ str "...")) := by
  have hf : ensureLaunchedFails s = false := by
    rcases s with ⟨br, ctx, pg, fl⟩
    cases br with
    | none => simp at hb
    | some b0 =>
      cases pg with
      | none => simp at hp
      | some p0 => rfl
  refine ⟨?_, getElementInfo_snd b sel tmo s, ?_, ?_, ?_⟩
  · cases hw : b.waitAttached with
    | error e =>
      exact ⟨⟨sel, false, none, none, none⟩, by simp [getElementInfo, hf, hw]⟩
    | ok u =>
      cases het : b.evaluateTag with
      | error e =>
        exact ⟨⟨sel, false, none, none, none⟩,
          by simp [getElementInfo, hf, hw, het]⟩
      | ok tg =>
        cases hit : b.innerText with
        | error e =>
          exact ⟨⟨sel, false, none, none, none⟩,
            by simp [getElementInfo, hf, hw, het, hit]⟩
        | ok tx =>
          cases hbb : b.boundingBox with
          | error e =>
            exact ⟨⟨sel, false, none, none, none⟩,
              by simp [getElementInfo, hf, hw, het, hit, hbb]⟩
          | ok bb =>
            exact ⟨⟨sel, true, some tg, some (truncateText tx), bb⟩,
              by simp [getElementInfo, hf, hw, het, hit, hbb]⟩
  · intro e hw
    simp [getElementInfo, hf, hw]
  · intro tg tx bb hw het hit hbb
    simp [getElementInfo, hf, hw, het, hit, hbb]
  · intro tx
    constructor
    · intro hle
      simp [truncateText, Nat.not_lt.2 hle]
    · intro hgt
      simp [truncateText, hgt]

set_option maxRecDepth 8000 in
/-- Claim C7 witness: a concrete found element with a 201-character text,
and a concrete timed-out wait. -/
theorem C7_getElementInfo_total_witness :
    (getElementInfo
        ⟨.ok (), .ok (str "div"), .ok (List.replicate 201 'x'), .ok none⟩
        (str "div") (some 5000) ⟨some 1, some 1, some 1, false⟩).1 =
      .ok ⟨str "div", true, some (str "div"),
        some (List.replicate 200 'x' ++ str "..."), none⟩ ∧
    (getElementInfo ⟨.error (str "Timeout 5000ms exceeded"), .ok (str "div"),
        .ok (str ""), .ok none⟩ (str "#missing") (some 5000)
        ⟨some 1, some 1, some 1, false⟩).1 =
      .ok ⟨str "#missing", false, none, none, none⟩ := by
  constructor
  · have h :=
      (C7_getElementInfo_total
        ⟨.ok (), .ok (str "div"), .ok (List.replicate 201 'x'), .ok none⟩
        (str "div") (some 5000) ⟨some 1, some 1, some 1, false⟩ rfl
        rfl).2.2.2.1 (str "div") (List.replicate 201 'x') none rfl rfl rfl rfl
    rw [h]
    have ht : truncateText (List.replicate 201 'x') =
        List.replicate 200 'x' ++ str "..." := by decide
    rw [ht]
  · exact (C7_getElementInfo_total
      ⟨.error (str "Timeout 5000ms exceeded"), .ok (str "div"), .ok (str ""),
        .ok none⟩ (str "#missing") (some 5000) ⟨some 1, some 1, some 1, false⟩
      rfl rfl).2.2.1 (str "Timeout 5000ms exceeded") rfl

theorem cleanEntries_eq (pattern : Option Str) (l : List DirEntry) :
    cleanEntries pattern l =
      ((l.filter (entryDoomed pattern)).length,
        l.filter (fun e => !(entryDoomed pattern e))) := by
  induction l with
  | nil => rfl
  | cons e rest ih =>
    cases hd : entryDoomed pattern e <;>
      simp [cleanEntries, ih, hd, List.filter_cons]

theorem globMatch_nil_iff (s : Str) : globMatch [] s = true ↔ GlobSem [] s := by
  cases s <;> simp [globMatch, GlobSem]

theorem globMatch_star_iff (ps : Str)
    (ih : ∀ s : Str, globMatch ps s = true ↔ GlobSem ps s) (s : Str) :
    globMatch ('*' :: ps) s = true ↔
      ∃ pre suf, s = pre ++ suf ∧ GlobSem ps suf := by
  induction s with
  | nil =>
    have h0 : globMatch ('*' :: ps) [] = globMatch ps [] := by
      rw [globMatch.eq_def]
      simp
    rw [h0, ih]
    constructor
    · intro h
      exact ⟨[], [], rfl, h⟩
    · rintro ⟨pre, suf, heq, hsem⟩
      obtain ⟨rfl, rfl⟩ := List.append_eq_nil.mp heq.symm
      exact hsem
  | cons a as ihs =>
    have h1 : globMatch ('*' :: ps) (a :: as) =
        (globMatch ps (a :: as) || globMatch ('*' :: ps) as) := by
      rw [globMatch.eq_def]
      simp
    rw [h1]
    simp only [Bool.or_eq_true]
    constructor
    · rintro (h1 | h2)
      · exact ⟨[], a :: as, rfl, (ih _).mp h1⟩
      · obtain ⟨pre, suf, heq, hsem⟩ := ihs.mp h2
        exact ⟨a :: pre, suf, by rw [heq, List.cons_append], hsem⟩
    · rintro ⟨pre, suf, heq, hsem⟩
      cases pre with
      | nil =>
        left
        rw [List.nil_append] at heq
        rw [heq]
        exact (ih _).mpr hsem
      | cons x pre2 =>
        right
        rw [List.cons_append, List.cons.injEq] at heq
        exact ihs.mpr ⟨pre2, suf, heq.2, hsem⟩

theorem globMatch_iff (p s : Str) : globMatch p s = true ↔ GlobSem p s := by
  induction p generalizing s with
  | nil => exact globMatch_nil_iff s
  | cons c ps ih =>
    by_cases hc : c = '*'
    · subst hc
      rw [globMatch_star_iff ps ih s]
      simp [GlobSem]
    · cases s with
      | nil =>
        rw [globMatch.eq_def]
        simp only [GlobSem, if_neg hc]
        simp
      | cons a as =>
        rw [globMatch.eq_def]
        simp only [GlobSem, if_neg hc]
        simp only [Bool.and_eq_true, decide_eq_true_eq]
        constructor
        · rintro ⟨rfl, hm⟩
          exact ⟨as, rfl, (ih _).mp hm⟩
        · rintro ⟨cs, heq, hsem⟩
          rw [List.cons.injEq] at heq
          obtain ⟨rfl, rfl⟩ := heq
          exact ⟨rfl, (ih _).mpr hsem⟩

/-- Claim C8: cleaning an existing directory deletes exactly the regular
files whose name matches the glob pattern (where `*` matches any run of
characters and every other pattern character is literal — the declarative
`GlobSem` below), leaves the non-matching files and all subdirectories
untouched, and returns the number deleted; cleaning a nonexistent
directory returns 0 without failing. -/
theorem C8_cleanScreenshots_correct :
    (∀ (entries : List DirEntry) (pat : Str),
      cleanScreenshots (some entries) pat =
        ((entries.filter (entryDoomed (some pat))).length,
          some (entries.filter (fun e => !(entryDoomed (some pat) e))))) ∧
    (∀ pat : Str, cleanScreenshots none pat = (0, none)) ∧
    (∀ filename pattern : Str,
      matchesPattern filename pattern = true ↔ GlobSem pattern filename) ∧
    (∀ (pat : Str) (e : DirEntry), entryDoomed (some pat) e = true ↔
      (e.isFile = true ∧ matchesPattern e.name pat = true)) := by
  refine ⟨?_, fun pat => rfl, fun filename pattern => globMatch_iff pattern filename,
    ?_⟩
  · intro entries pat
    simp [cleanScreenshots, cleanDirectory, cleanEntries_eq]
  · intro pat e
    simp [entryDoomed]
